import Mathlib

/-!
Verification development for the Regatta Race Suite backend (Rust).

Each section shallowly embeds one component of the source tree and proves
the specification claims about it:

* `Audit`        — `backend-rust/src/audit.rs` (SHA-256 chained audit log)
* `UwbHub`       — `backend-rust/src/uwb_hub.rs` (sequence-number guard)
* `UwbPhysics`   — `packages/uwb-simulator/src/uwb_physics.rs` (fix quality)
* `Procedure`    — `backend-rust/src/procedure_engine.rs` (start-sequence engine)
* `Handlers`     — `backend-rust/src/handlers.rs` (director actions, auto-timers)
* `Trilateration`— `packages/uwb-simulator/src/trilateration.rs` (WLS solver)

Machine integers are embedded as `Nat`/`Int` with explicit `% 2 ^ 32` where
wrap-around matters; `f64` durations are embedded as `ℚ` (the verified claims
only exercise exact comparisons); external-crate functions (the SHA-256 digest
of the `sha2` crate, `serde_json` serialisation) are abstracted as function
parameters, since their definitions are not part of this repository.
-/

namespace Audit

/-- Embeds `AuditEventType` from `audit.rs` (six critical-event categories). -/
inductive AuditEventType
  | raceStatusChange
  | ocsDetected
  | uwbGunSolve
  | uwbMeasurementBatch
  | sessionEvent
  | protestReplay
  deriving DecidableEq, Repr

/-- Embeds the `AuditBlock` struct from `audit.rs`. -/
structure AuditBlock where
  block_seq : Nat
  session_id : String
  timestamp_ms : Nat
  prev_hash : String
  event_type : AuditEventType
  payload_json : String
  block_hash : String
  deriving DecidableEq, Repr

/-- Type of the digest function `AuditBlock::compute_hash`.  The digest itself
is SHA-256 from the external `sha2` crate, abstracted here as a parameter:
given `prev_hash`, `timestamp_ms`, `event_type` and `payload_json` it returns
the hex digest string.  Every theorem below holds for an arbitrary digest. -/
def HashFn : Type := String → Nat → AuditEventType → String → String

/-- Embeds `AuditBlock::new`: fills the fields and computes `block_hash` over
`(prev_hash, timestamp_ms, event_type, payload_json)`. -/
def AuditBlock.make (hashF : HashFn) (block_seq : Nat) (session_id : String)
    (timestamp_ms : Nat) (prev_hash : String) (event_type : AuditEventType)
    (payload_json : String) : AuditBlock :=
  { block_seq := block_seq
    session_id := session_id
    timestamp_ms := timestamp_ms
    prev_hash := prev_hash
    event_type := event_type
    payload_json := payload_json
    block_hash := hashF prev_hash timestamp_ms event_type payload_json }

/-- Embeds `AuditBlock::verify`: recompute the hash over the four hashed
fields and compare with the stored `block_hash`. -/
def AuditBlock.verify (hashF : HashFn) (b : AuditBlock) : Bool :=
  hashF b.prev_hash b.timestamp_ms b.event_type b.payload_json == b.block_hash

/-- Embeds the `GENESIS_HASH` constant (64 zero hex digits). -/
def GENESIS_HASH : String :=
  "0000000000000000000000000000000000000000000000000000000000000000"

/-- Embeds the `AuditState` struct (running counter and tail hash). -/
structure AuditState where
  block_seq : Nat
  last_hash : String
  deriving DecidableEq, Repr

/-- Embeds the initial state built by `AuditLogger::new`. -/
def initialAuditState : AuditState :=
  { block_seq := 0, last_hash := GENESIS_HASH }

/-- Input of one `AuditLogger::append` call: the caller passes the event type
and payload; the wall clock supplies `timestamp_ms` and the session lock
supplies `session_id`, both embedded as explicit inputs. -/
structure AppendInput where
  event_type : AuditEventType
  payload_json : String
  timestamp_ms : Nat
  session_id : String
  deriving DecidableEq, Repr

/-- Embeds `AuditLogger::append` (audit.rs lines 158-213).  The block is built
from the current state, then the state is advanced (`last_hash` becomes the
new block hash, `block_seq` increments) *before* serialisation is attempted.
`serOk` abstracts `serde_json::to_string(&block).is_ok()`; when it is `false`
the code logs a warning and returns without writing the line, which is the
third component of the result (`written`). -/
def append (hashF : HashFn) (serOk : AuditBlock → Bool) (st : AuditState)
    (inp : AppendInput) : AuditState × AuditBlock × Bool :=
  let block := AuditBlock.make hashF st.block_seq inp.session_id
    inp.timestamp_ms st.last_hash inp.event_type inp.payload_json
  let st' : AuditState := { block_seq := st.block_seq + 1, last_hash := block.block_hash }
  (st', block, serOk block)

/-- The sequence of blocks produced by successive `append` calls in one
process lifetime, starting from a given state. -/
def appendChain (hashF : HashFn) (serOk : AuditBlock → Bool) :
    AuditState → List AppendInput → List AuditBlock
  | _, [] => []
  | st, inp :: rest =>
    let r := append hashF serOk st inp
    r.2.1 :: appendChain hashF serOk r.1 rest

end Audit

namespace UwbHub

/-- Embeds the `SeqTracker` struct from `uwb_hub.rs`.  The Rust field is a
`HashMap<u32, u32>`; since `accept` reads it with `.entry(node_id).or_insert(0)`,
a missing key behaves exactly like a stored `0`, so the map is embedded as a
total function with default `0`.  Values are `Nat`s kept below `2 ^ 32`. -/
structure SeqTracker where
  last_seq : Nat → Nat

/-- Embeds `SeqTracker::new` (empty map, so every lookup yields `0`). -/
def SeqTracker.new : SeqTracker := ⟨fun _ => 0⟩

/-- The `u32` wrapping subtraction `seq_num.wrapping_sub(last)` for operands
below `2 ^ 32`. -/
def wrapSub32 (seq_num last : Nat) : Nat :=
  (seq_num + 2 ^ 32 - last) % 2 ^ 32

/-- Embeds `SeqTracker::accept` (uwb_hub.rs lines 135-146): reject when the
wrapping difference is `0` (duplicate) or greater than `1000` (backward jump /
replay); otherwise store `seq_num` for the node and accept. -/
def SeqTracker.accept (tr : SeqTracker) (node_id seq_num : Nat) : Bool × SeqTracker :=
  let last := tr.last_seq node_id
  let diff := wrapSub32 seq_num last
  if diff = 0 ∨ diff > 1000 then
    (false, tr)
  else
    (true, ⟨fun n => if n = node_id then seq_num else tr.last_seq n⟩)

end UwbHub

namespace UwbPhysics

/-- Embeds the fix-quality computation of `generate_epoch`
(uwb_physics.rs lines 213-218):
`if n_total == 0 { 0 } else { (70u32.saturating_sub(n_nlos*12) + n_total.min(8)*4).min(100) as u8 }`.
`u32::saturating_sub` is `Nat` truncated subtraction; the final `as u8` cast
is embedded as `% 256` (the value is at most 100, so it never truncates). -/
def fix_quality (n_nlos n_total : Nat) : Nat :=
  if n_total = 0 then 0
  else (min (70 - n_nlos * 12 + min n_total 8 * 4) 100) % 256

/-- The clamped integer formula stated by the spec:
`min(100, max(0, 70 - 12*n_nlos) + 4*min(8, n_total))`, written over `ℤ`
exactly as the spec's words give it (this is the spec-side definition used to
compare against the source-side `fix_quality`). -/
def specFixQuality (n_nlos n_total : Int) : Int :=
  min 100 (max 0 (70 - 12 * n_nlos) + 4 * min 8 n_total)

end UwbPhysics

namespace Procedure

/-- Embeds the `RaceStatus` enum from `state.rs`. -/
inductive RaceStatus
  | idle
  | warning
  | preparatory
  | oneMinute
  | racing
  | finished
  | postponed
  | individualRecall
  | generalRecall
  | abandoned
  deriving DecidableEq, Repr

/-- Embeds the `SoundSignal` enum from `state.rs`. -/
inductive SoundSignal
  | noSound
  | oneShort
  | oneLong
  | twoShort
  | threeShort
  deriving DecidableEq, Repr

/-- Embeds `SequenceInfo` from `state.rs`. -/
structure SequenceInfo where
  event : String
  flags : List String
  deriving DecidableEq, Repr

/-- Embeds `ProcedureNodeData` from `state.rs`.  `f64` durations are embedded
as `ℚ`. -/
structure ProcedureNodeData where
  label : String
  flags : List String
  duration : Rat
  sound : SoundSignal
  sound_on_remove : SoundSignal
  wait_for_user_trigger : Bool
  action_label : Option String
  post_trigger_duration : Rat
  post_trigger_flags : List String
  race_status : Option String
  deriving DecidableEq, Repr

/-- Embeds `ProcedureNode` from `state.rs` (the serde-only `position` payload
is omitted; no engine code reads it). -/
structure ProcedureNode where
  id : String
  node_type : String
  data : ProcedureNodeData
  deriving DecidableEq, Repr

/-- Embeds `ProcedureEdge` from `state.rs`. -/
structure ProcedureEdge where
  id : String
  source : String
  target : String
  animated : Option Bool
  deriving DecidableEq, Repr

/-- Embeds `ProcedureGraph` from `state.rs`. -/
structure ProcedureGraph where
  id : String
  nodes : List ProcedureNode
  edges : List ProcedureEdge
  auto_restart : Bool
  deriving DecidableEq, Repr

/-- Embeds `SequenceUpdate` from `state.rs`. -/
structure SequenceUpdate where
  status : String
  current_sequence : SequenceInfo
  sequence_time_remaining : Rat
  node_time_remaining : Rat
  current_node_id : String
  waiting_for_trigger : Bool
  action_label : Option String
  is_post_trigger : Bool
  sound : SoundSignal
  deriving DecidableEq, Repr

/-- Embeds the `ProcedureEngine` struct from `procedure_engine.rs`.
`std::time::Instant` values are embedded as rational timestamps; every
operation that calls `Instant::now()` takes the current time as an input. -/
structure ProcedureEngine where
  graph : Option ProcedureGraph
  current_node_id : Option String
  node_started_at : Option Rat
  sequence_started_at : Option Rat
  is_post_trigger : Bool
  post_trigger_started_at : Option Rat
  deriving DecidableEq, Repr

/-- Embeds the `TickResult` enum from `procedure_engine.rs`. -/
inductive TickResult
  | idle
  | update (u : SequenceUpdate)
  | sequenceComplete
  deriving DecidableEq, Repr

/-- Embeds `ProcedureEngine::new`. -/
def ProcedureEngine.new : ProcedureEngine :=
  { graph := none
    current_node_id := none
    node_started_at := none
    sequence_started_at := none
    is_post_trigger := false
    post_trigger_started_at := none }

/-- Embeds `ProcedureEngine::load_procedure`. -/
def ProcedureEngine.load_procedure (e : ProcedureEngine) (g : ProcedureGraph) :
    ProcedureEngine :=
  { e with graph := some g, current_node_id := none }

/-- Embeds `ProcedureEngine::stop`: clears the runtime node state (the graph
and `sequence_started_at` are kept, exactly as in the source). -/
def ProcedureEngine.stop (e : ProcedureEngine) : ProcedureEngine :=
  { e with
    current_node_id := none
    node_started_at := none
    is_post_trigger := false
    post_trigger_started_at := none }

/-- Embeds `ProcedureEngine::is_running`. -/
def ProcedureEngine.is_running (e : ProcedureEngine) : Bool :=
  e.current_node_id.isSome

/-- Embeds `Iterator::find` over the node list by id
(`graph.nodes.iter().find(|n| n.id == id)`). -/
def findNode (g : ProcedureGraph) (id : String) : Option ProcedureNode :=
  g.nodes.find? (fun n => n.id == id)

/-- Embeds `str::contains` used on lowercased labels: `pat` occurs as a
contiguous substring of `s`. -/
def listIsPrefixOf : List Char → List Char → Bool
  | [], _ => true
  | _ :: _, [] => false
  | a :: as, b :: bs => a == b && listIsPrefixOf as bs

/-- Substring search over character lists (helper for `strContains`). -/
def listHasSub (pat : List Char) : List Char → Bool
  | [] => listIsPrefixOf pat []
  | c :: rest => listIsPrefixOf pat (c :: rest) || listHasSub pat rest

/-- Embeds Rust `String::contains(&str)`. -/
def strContains (s pat : String) : Bool :=
  listHasSub pat.data s.data

/-- Embeds `ProcedureEngine::current_race_status` (procedure_engine.rs lines
115-165): the explicit `raceStatus` override wins; otherwise the lowercased
label is matched against the fixed keyword table; default while running is
`warning`. -/
def ProcedureEngine.current_race_status (e : ProcedureEngine) : RaceStatus :=
  match e.graph with
  | none => RaceStatus.idle
  | some graph =>
    match e.current_node_id with
    | none => RaceStatus.idle
    | some current_id =>
      match findNode graph current_id with
      | none => RaceStatus.idle
      | some node =>
        match node.data.race_status with
        | some status_str =>
          if status_str = "IDLE" then RaceStatus.idle
          else if status_str = "WARNING" then RaceStatus.warning
          else if status_str = "PREPARATORY" then RaceStatus.preparatory
          else if status_str = "ONE_MINUTE" then RaceStatus.oneMinute
          else if status_str = "RACING" then RaceStatus.racing
          else if status_str = "FINISHED" then RaceStatus.finished
          else if status_str = "POSTPONED" then RaceStatus.postponed
          else if status_str = "INDIVIDUAL_RECALL" then RaceStatus.individualRecall
          else if status_str = "GENERAL_RECALL" then RaceStatus.generalRecall
          else if status_str = "ABANDONED" then RaceStatus.abandoned
          else RaceStatus.idle
        | none =>
          let label_lower := node.data.label.toLower
          if strContains label_lower "warning" then RaceStatus.warning
          else if strContains label_lower "preparatory" || strContains label_lower "prep" then
            RaceStatus.preparatory
          else if strContains label_lower "one-minute" || strContains label_lower "one minute"
              || strContains label_lower "1-minute" then RaceStatus.oneMinute
          else if strContains label_lower "start" then RaceStatus.oneMinute
          else if strContains label_lower "racing" || strContains label_lower "race" then
            RaceStatus.racing
          else if strContains label_lower "idle" then RaceStatus.idle
          else RaceStatus.warning

/-- Embeds `ProcedureEngine::get_next_node_id`: the target of the first edge
whose source is the given node. -/
def ProcedureEngine.get_next_node_id (e : ProcedureEngine) (node_id : String) :
    Option String :=
  (e.graph.bind (fun g => g.edges.find? (fun ed => ed.source == node_id))).map
    (fun ed => ed.target)

/-- Loop body state of `calculate_total_remaining`'s forward walk. -/
def totalRemainingWalk (e : ProcedureEngine) (g : ProcedureGraph) :
    Nat → Option String → List String → Rat → Rat
  | 0, _, _, total => total
  | _, none, _, total => total
  | fuel + 1, some id, visited, total =>
    if visited.contains id then total
    else
      match findNode g id with
      | some node =>
        totalRemainingWalk e g fuel (e.get_next_node_id id) (id :: visited)
          (total + node.data.duration)
      | none => total

/-- Embeds `ProcedureEngine::calculate_total_remaining` (procedure_engine.rs
lines 355-380): remaining time of the current node plus the durations of every
successor reachable on outgoing edges, with a visited-set loop guard.  The
`while` loop is embedded with fuel `nodes.length + 1`; since every iteration
either stops or marks a previously unvisited node of the graph as visited,
that fuel is never exhausted before the loop's own exit conditions fire. -/
def ProcedureEngine.calculate_total_remaining (e : ProcedureEngine)
    (current_node : ProcedureNode) (elapsed_in_node : Rat) : Rat :=
  match e.graph with
  | none => 0
  | some g =>
    let total := max (current_node.data.duration - elapsed_in_node) 0
    let walked := totalRemainingWalk e g (g.nodes.length + 1)
      (e.get_next_node_id current_node.id) [current_node.id] total
    (Rat.ceil (max walked 0) : Int)

/-- Embeds `ProcedureEngine::build_update` (procedure_engine.rs lines
284-353). -/
def ProcedureEngine.build_update (e : ProcedureEngine) (now : Rat) :
    Option SequenceUpdate :=
  match e.graph with
  | none => none
  | some graph =>
    match e.current_node_id with
    | none => none
    | some current_id =>
      match e.node_started_at with
      | none => none
      | some started_at =>
        match findNode graph current_id with
        | none => none
        | some current_node =>
          let elapsed := now - started_at
          let duration := current_node.data.duration
          let is_waiting := !e.is_post_trigger
            && current_node.data.wait_for_user_trigger
            && (duration == 0 || elapsed ≥ duration)
          match (if e.is_post_trigger then e.post_trigger_started_at else some 0) with
          | none => none
          | some pstamp =>
            let node_remaining : Rat :=
              if e.is_post_trigger then
                let p_elapsed := now - pstamp
                let p_dur := current_node.data.post_trigger_duration
                ((Rat.ceil (max (p_dur - p_elapsed) 0) : Int) : Rat)
              else if duration > 0 then
                ((Rat.ceil (max (duration - elapsed) 0) : Int) : Rat)
              else 0
            let total_remaining := e.calculate_total_remaining current_node elapsed
            let active_flags :=
              if e.is_post_trigger && !current_node.data.post_trigger_flags.isEmpty then
                current_node.data.post_trigger_flags
              else current_node.data.flags
            let status := e.current_race_status
            let status_str :=
              match status with
              | RaceStatus.idle => "IDLE"
              | RaceStatus.warning => "WARNING"
              | RaceStatus.preparatory => "PREPARATORY"
              | RaceStatus.oneMinute => "ONE_MINUTE"
              | RaceStatus.racing => "RACING"
              | RaceStatus.finished => "FINISHED"
              | RaceStatus.postponed => "POSTPONED"
              | RaceStatus.individualRecall => "INDIVIDUAL_RECALL"
              | RaceStatus.generalRecall => "GENERAL_RECALL"
              | RaceStatus.abandoned => "ABANDONED"
            let sound :=
              if elapsed < 3 / 10 && !e.is_post_trigger then current_node.data.sound
              else SoundSignal.noSound
            some
              { status := status_str
                current_sequence :=
                  { event := current_node.data.label, flags := active_flags }
                sequence_time_remaining := total_remaining
                node_time_remaining := node_remaining
                current_node_id := current_id
                waiting_for_trigger := is_waiting
                action_label := current_node.data.action_label
                is_post_trigger := e.is_post_trigger
                sound := sound }

/-- Embeds `ProcedureEngine::start` (procedure_engine.rs lines 82-100): enter
the node with id `"1"`, or else the first node, stamping both timestamps. -/
def ProcedureEngine.start (e : ProcedureEngine) (now : Rat) :
    Option SequenceUpdate × ProcedureEngine :=
  match e.graph with
  | none => (none, e)
  | some graph =>
    match (graph.nodes.find? (fun n => n.id == "1")).orElse (fun _ => graph.nodes.head?) with
    | none => (none, e)
    | some start_node =>
      let e' := { e with
        current_node_id := some start_node.id
        node_started_at := some now
        sequence_started_at := some now
        is_post_trigger := false
        post_trigger_started_at := none }
      (e'.build_update now, e')

/-- Embeds `ProcedureEngine::transition_next` (procedure_engine.rs lines
233-282): follow the first outgoing edge; at the end of the graph either
auto-restart at the first node or clear the runtime and report
`SequenceComplete`. -/
def ProcedureEngine.transition_next (e : ProcedureEngine) (now : Rat) :
    TickResult × ProcedureEngine :=
  match e.current_node_id with
  | none => (TickResult.idle, e)
  | some current_id =>
    let next_id := (e.graph.bind
      (fun g => g.edges.find? (fun ed => ed.source == current_id))).map
      (fun ed => ed.target)
    match next_id with
    | some id =>
      let e' := { e with
        current_node_id := some id
        node_started_at := some now
        is_post_trigger := false
        post_trigger_started_at := none }
      match e'.build_update now with
      | some upd => (TickResult.update upd, e')
      | none => (TickResult.idle, e')
    | none =>
      let should_loop := (e.graph.map (fun g => g.auto_restart)).getD false
      match (if should_loop then e.graph.bind (fun g => g.nodes.head?) else none) with
      | some first_node =>
        let e' := { e with
          current_node_id := some first_node.id
          node_started_at := some now
          is_post_trigger := false
          post_trigger_started_at := none }
        match e'.build_update now with
        | some upd => (TickResult.update upd, e')
        | none => (TickResult.idle, e')
      | none =>
        let e' := { e with
          current_node_id := none
          node_started_at := none
          is_post_trigger := false
          post_trigger_started_at := none }
        (TickResult.sequenceComplete, e')

/-- Embeds `ProcedureEngine::tick` (procedure_engine.rs lines 168-231). -/
def ProcedureEngine.tick (e : ProcedureEngine) (now : Rat) :
    TickResult × ProcedureEngine :=
  match e.graph with
  | none => (TickResult.idle, e)
  | some graph =>
    match e.current_node_id with
    | none => (TickResult.idle, e)
    | some current_id =>
      match e.node_started_at with
      | none => (TickResult.idle, e)
      | some started_at =>
        match findNode graph current_id with
        | none => (TickResult.idle, e)
        | some current_node =>
          let elapsed := now - started_at
          let duration := current_node.data.duration
          if e.is_post_trigger then
            match e.post_trigger_started_at with
            | none => (TickResult.idle, e)
            | some post_started_at =>
              let post_elapsed := now - post_started_at
              let post_dur := current_node.data.post_trigger_duration
              if post_elapsed ≥ post_dur then e.transition_next now
              else
                match e.build_update now with
                | some update => (TickResult.update update, e)
                | none => (TickResult.idle, e)
          else
            let is_waiting := current_node.data.wait_for_user_trigger
              && (duration == 0 || elapsed ≥ duration)
            if duration > 0 && elapsed ≥ duration && !is_waiting then
              if current_node.data.post_trigger_duration > 0 then
                let e' := { e with
                  is_post_trigger := true
                  post_trigger_started_at := some now }
                match e'.build_update now with
                | some update => (TickResult.update update, e')
                | none => (TickResult.idle, e')
              else e.transition_next now
            else if duration == 0 && !is_waiting then e.transition_next now
            else
              match e.build_update now with
              | some update => (TickResult.update update, e)
              | none => (TickResult.idle, e)

/-- The boundary-case graph of the spec: a single node, no edges, no
auto-restart. -/
def singleNodeGraph (gid : String) (node : ProcedureNode) : ProcedureGraph :=
  { id := gid, nodes := [node], edges := [], auto_restart := false }

/-- A concrete zero-duration, non-waiting start node (boundary-case input). -/
def zeroDurationNode : ProcedureNode where
  id := "1"
  node_type := "signal"
  data :=
    { label := "Start"
      flags := []
      duration := 0
      sound := SoundSignal.oneShort
      sound_on_remove := SoundSignal.noSound
      wait_for_user_trigger := false
      action_label := none
      post_trigger_duration := 0
      post_trigger_flags := []
      race_status := none }

end Procedure

namespace Handlers

open Procedure

/-- Embeds the `PenaltyType` enum from `state.rs`. -/
inductive PenaltyType
  | ocs
  | dsq
  | dnf
  | dns
  | tle
  | turn360
  | umpireNoAction
  | umpirePenalty
  | umpireDsq
  deriving DecidableEq, Repr

/-- Embeds `Penalty` from `state.rs`. -/
structure Penalty where
  boat_id : String
  penalty_type : PenaltyType
  timestamp : Int
  deriving DecidableEq, Repr

/-- Embeds the fields of `RaceState` (state.rs lines 358-400) that the
director `procedure-action` handlers and their auto-timers read or write.
The remaining fields (wind, weather, course, boats, logs, prep flag, fleet
history, time limits, …) are untouched by every operation verified here and
are omitted from the embedding. -/
structure RaceState where
  status : RaceStatus
  current_sequence : Option SequenceInfo
  sequence_time_remaining : Option Rat
  start_time : Option Int
  waiting_for_trigger : Bool
  action_label : Option String
  is_post_trigger : Bool
  ocs_boats : List String
  penalties : List Penalty
  deriving DecidableEq, Repr

/-- Embeds the `"POSTPONE"` arm of the `procedure-action` handler
(handlers.rs lines 554-573, the synchronous part before the auto-resume task
is spawned): stop the engine, set status `Postponed`, raise the AP flag,
clear the countdown fields. -/
def postponeAction (e : ProcedureEngine) (st : RaceState) :
    ProcedureEngine × RaceState :=
  (e.stop,
    { st with
      status := RaceStatus.postponed
      current_sequence := some { event := "Postponed", flags := ["AP"] }
      sequence_time_remaining := none
      waiting_for_trigger := false
      action_label := none })

/-- Embeds the `"INDIVIDUAL_RECALL"` arm (handlers.rs lines 619-640, before
the auto-clear task is spawned).  The source deliberately does **not** stop
the engine ("Don't stop the engine — racing continues"): it records the OCS
boats, sets status `IndividualRecall` and raises the X flag. -/
def individualRecallAction (ocs_boats : List String) (e : ProcedureEngine)
    (st : RaceState) : ProcedureEngine × RaceState :=
  (e,
    { st with
      status := RaceStatus.individualRecall
      ocs_boats := ocs_boats
      current_sequence := some { event := "Individual Recall", flags := ["X"] } })

/-- Embeds the `"GENERAL_RECALL"` arm (handlers.rs lines 681-700, before the
auto-resume task is spawned): stop the engine, set status `GeneralRecall`,
raise the 1st Substitute flag, clear the countdown fields. -/
def generalRecallAction (e : ProcedureEngine) (st : RaceState) :
    ProcedureEngine × RaceState :=
  (e.stop,
    { st with
      status := RaceStatus.generalRecall
      current_sequence := some { event := "General Recall", flags := ["FIRST_SUB"] }
      sequence_time_remaining := none
      waiting_for_trigger := false
      action_label := none })

/-- Embeds the `"ABANDON"` arm (handlers.rs lines 744-765): stop the engine,
set status `Abandoned`, raise the N flag, clear the countdown fields and the
OCS list. -/
def abandonAction (e : ProcedureEngine) (st : RaceState) :
    ProcedureEngine × RaceState :=
  (e.stop,
    { st with
      status := RaceStatus.abandoned
      current_sequence := some { event := "Abandoned", flags := ["N"] }
      sequence_time_remaining := none
      waiting_for_trigger := false
      action_label := none
      ocs_boats := [] })

/-- Embeds the body of the POSTPONE auto-resume task (handlers.rs lines
579-615) from the moment its 60-second `sleep` wakes: re-read the status and
return unchanged if it is no longer `Postponed`; otherwise restart the engine
and republish status and sequence fields.  `now` is the wake-up instant. -/
def postponeResumeBody (now : Rat) (e : ProcedureEngine) (st : RaceState) :
    ProcedureEngine × RaceState :=
  if st.status ≠ RaceStatus.postponed then (e, st)
  else
    let r := e.start now
    let status := r.2.current_race_status
    let st' := { st with status := status }
    match r.1 with
    | some upd =>
      (r.2, { st' with
        current_sequence := some upd.current_sequence
        sequence_time_remaining := some upd.sequence_time_remaining })
    | none => (r.2, st')

/-- Embeds the body of the GENERAL_RECALL auto-resume task (handlers.rs lines
706-739) from the moment its 60-second `sleep` wakes: identical to the
postpone resume except that it checks for `GeneralRecall`. -/
def generalRecallResumeBody (now : Rat) (e : ProcedureEngine) (st : RaceState) :
    ProcedureEngine × RaceState :=
  if st.status ≠ RaceStatus.generalRecall then (e, st)
  else
    let r := e.start now
    let status := r.2.current_race_status
    let st' := { st with status := status }
    match r.1 with
    | some upd =>
      (r.2, { st' with
        current_sequence := some upd.current_sequence
        sequence_time_remaining := some upd.sequence_time_remaining })
    | none => (r.2, st')

/-- Embeds the body of the INDIVIDUAL_RECALL X-flag auto-clear task
(handlers.rs lines 645-677) from the moment its 300-second `sleep` wakes:
return unchanged if the status moved off `IndividualRecall`; otherwise go
back to `Racing`, issue a DNS penalty to every recorded OCS boat (at wall
time `now_ms`) and clear the OCS list. -/
def individualRecallClearBody (now_ms : Int) (st : RaceState) : RaceState :=
  if st.status ≠ RaceStatus.individualRecall then st
  else
    { st with
      status := RaceStatus.racing
      current_sequence := some { event := "Racing", flags := [] }
      penalties := st.penalties ++ st.ocs_boats.map
        (fun boat_id =>
          { boat_id := boat_id
            penalty_type := PenaltyType.dns
            timestamp := now_ms })
      ocs_boats := [] }

end Handlers

namespace Trilateration

/-- Embeds `RangeMeasurement` from `trilateration.rs`.  `f32` quantities are
embedded as `ℚ`; the one operation on them that `ℚ` lacks (`sqrt`) is passed
to the solver as an explicit function parameter `sqrtF`, so every theorem
below holds for an arbitrary square-root routine. -/
structure RangeMeasurement where
  node_i : Nat
  node_j : Nat
  range_m : Rat
  sigma_m : Rat
  nlos : Bool
  deriving DecidableEq, Repr

/-- Embeds `Pos2D` from `trilateration.rs`. -/
structure Pos2D where
  x : Rat
  y : Rat
  deriving DecidableEq, Repr

/-- Embeds `MultilaterationResult` from `trilateration.rs`; the `positions`
hash map is embedded as an association list.  The `u32` subtraction in
`n_measurements` is embedded as truncated subtraction. -/
structure MultilaterationResult where
  positions : List (Nat × Pos2D)
  rms_residual_m : Rat
  iterations : Nat
  converged : Bool
  n_measurements : Nat
  n_rejected : Nat
  deriving DecidableEq, Repr

/-- Association-list lookup, embedding `HashMap::get`. -/
def assocGet {α : Type} (l : List (Nat × α)) (k : Nat) : Option α :=
  (l.find? (fun p => p.1 == k)).map Prod.snd

/-- Association-list insert, embedding `HashMap::insert` (replace the entry
when the key is present, append otherwise). -/
def assocInsert {α : Type} (l : List (Nat × α)) (k : Nat) (v : α) :
    List (Nat × α) :=
  if (l.find? (fun p => p.1 == k)).isSome then
    l.map (fun p => if p.1 == k then (k, v) else p)
  else l ++ [(k, v)]

/-- Embeds `AnchorMap` from `trilateration.rs` (node id to fixed `[f32; 2]`
position). -/
structure AnchorMap where
  positions : List (Nat × (Rat × Rat))
  deriving DecidableEq, Repr

/-- Embeds `AnchorMap::get`. -/
def AnchorMap.get (a : AnchorMap) (node_id : Nat) : Option (Rat × Rat) :=
  assocGet a.positions node_id

/-- Embeds `AnchorMap::is_anchor`. -/
def AnchorMap.is_anchor (a : AnchorMap) (node_id : Nat) : Bool :=
  (a.get node_id).isSome

/-- Ordered insert without duplicates, embedding `BTreeSet::insert` on a
sorted list. -/
def insertSorted (x : Nat) : List Nat → List Nat
  | [] => [x]
  | y :: ys =>
    if x < y then x :: y :: ys
    else if x = y then y :: ys
    else y :: insertSorted x ys

/-- Embeds the `unknown_ids` collection at the top of `solve`
(trilateration.rs lines 102-109): the sorted set of measurement endpoints
that are not anchors. -/
def unknownIds (measurements : List RangeMeasurement) (anchors : AnchorMap) :
    List Nat :=
  measurements.foldl
    (fun ids m =>
      let ids := if anchors.is_anchor m.node_i then ids else insertSorted m.node_i ids
      if anchors.is_anchor m.node_j then ids else insertSorted m.node_j ids)
    []

/-- Embeds `huber_weight` from `trilateration.rs`. -/
def huber_weight (residual sigma delta : Rat) : Rat :=
  let normalized := |residual / sigma|
  if normalized ≤ delta then 1 / (sigma * sigma)
  else delta / (normalized * sigma * sigma)

/-- Accumulator of the innermost measurement loop of `solve`: the 2×2 normal
matrix, the right-hand side, and the sweep-level counters threaded through. -/
structure NodeAcc where
  atwa00 : Rat
  atwa01 : Rat
  atwa10 : Rat
  atwa11 : Rat
  atwb0 : Rat
  atwb1 : Rat
  n_rejected : Nat
  n_used : Nat
  sum_sq_res : Rat
  deriving DecidableEq, Repr

/-- Embeds one pass of the `for m in measurements` loop inside `solve` for
unknown node `id_i` currently estimated at `pi` (trilateration.rs lines
141-180): Mahalanobis gating at `9.0`, Huber weighting with `δ = 0.15`, and
accumulation of the normal equations. -/
def processMeasurement (sqrtF : Rat → Rat) (positions : List (Nat × (Rat × Rat)))
    (anchors : AnchorMap) (id_i : Nat) (pi : Rat × Rat) (acc : NodeAcc)
    (m : RangeMeasurement) : NodeAcc :=
  let pj_arr : Option (Rat × Rat) :=
    if m.node_i == id_i then
      (anchors.get m.node_j).orElse (fun _ => assocGet positions m.node_j)
    else if m.node_j == id_i then
      (anchors.get m.node_i).orElse (fun _ => assocGet positions m.node_i)
    else none
  match pj_arr with
  | none => acc
  | some pj =>
    let dx := pi.1 - pj.1
    let dy := pi.2 - pj.2
    let dist := max (sqrtF (dx * dx + dy * dy)) (1 / 1000)
    let residual := m.range_m - dist
    let mahal := (residual / m.sigma_m) ^ 2
    if mahal > 9 then { acc with n_rejected := acc.n_rejected + 1 }
    else
      let w := huber_weight residual m.sigma_m (15 / 100)
      let jx := dx / dist
      let jy := dy / dist
      { atwa00 := acc.atwa00 + w * jx * jx
        atwa01 := acc.atwa01 + w * jx * jy
        atwa10 := acc.atwa10 + w * jy * jx
        atwa11 := acc.atwa11 + w * jy * jy
        atwb0 := acc.atwb0 + w * jx * residual
        atwb1 := acc.atwb1 + w * jy * residual
        n_rejected := acc.n_rejected
        n_used := acc.n_used + 1
        sum_sq_res := acc.sum_sq_res + residual * residual }

/-- Accumulator of one Gauss-Newton sweep: the evolving position table, the
sweep counters and the largest position update seen so far. -/
structure SweepAcc where
  positions : List (Nat × (Rat × Rat))
  n_rejected : Nat
  sum_sq_res : Rat
  n_used : Nat
  max_update : Rat
  deriving DecidableEq, Repr

/-- Embeds the per-node block of a sweep (trilateration.rs lines 135-195):
accumulate the normal equations over all measurements, skip the node when the
2×2 determinant is below `1e-10`, otherwise apply the Cramer's-rule update
and track the update magnitude. -/
def sweepNode (sqrtF : Rat → Rat) (measurements : List RangeMeasurement)
    (anchors : AnchorMap) (acc : SweepAcc) (id_i : Nat) : SweepAcc :=
  let pi := (assocGet acc.positions id_i).getD (0, 0)
  let nacc0 : NodeAcc :=
    { atwa00 := 0, atwa01 := 0, atwa10 := 0, atwa11 := 0
      atwb0 := 0, atwb1 := 0
      n_rejected := acc.n_rejected, n_used := acc.n_used
      sum_sq_res := acc.sum_sq_res }
  let nacc := measurements.foldl
    (processMeasurement sqrtF acc.positions anchors id_i pi) nacc0
  let det := nacc.atwa00 * nacc.atwa11 - nacc.atwa01 * nacc.atwa10
  let acc' := { acc with
    n_rejected := nacc.n_rejected
    sum_sq_res := nacc.sum_sq_res
    n_used := nacc.n_used }
  if |det| < 1 / 10 ^ 10 then acc'
  else
    let dx := (nacc.atwa11 * nacc.atwb0 - nacc.atwa01 * nacc.atwb1) / det
    let dy := (nacc.atwa00 * nacc.atwb1 - nacc.atwa10 * nacc.atwb0) / det
    let update_norm := sqrtF (dx * dx + dy * dy)
    { acc' with
      max_update := max acc'.max_update update_norm
      positions := assocInsert acc'.positions id_i (pi.1 + dx, pi.2 + dy) }

/-- State threaded through the outer `for iter in 0..max_iter` loop of
`solve`. -/
structure OuterState where
  positions : List (Nat × (Rat × Rat))
  n_rejected : Nat
  final_rms : Rat
  final_iter : Nat
  converged : Bool
  deriving DecidableEq, Repr

/-- Embeds the outer Gauss-Newton loop of `solve` (trilateration.rs lines
127-203), with early exit when the maximum per-node update drops below the
convergence threshold. -/
def runSweeps (sqrtF : Rat → Rat) (measurements : List RangeMeasurement)
    (anchors : AnchorMap) (unknown_ids : List Nat) (converge_threshold : Rat) :
    Nat → Nat → OuterState → OuterState
  | 0, _, s => s
  | iters_left + 1, iter_index, s =>
    let sw0 : SweepAcc :=
      { positions := s.positions, n_rejected := 0, sum_sq_res := 0
        n_used := 0, max_update := 0 }
    let sw := unknown_ids.foldl (sweepNode sqrtF measurements anchors) sw0
    let final_rms :=
      if sw.n_used > 0 then sqrtF (sw.sum_sq_res / (sw.n_used : Rat)) else 0
    let s' : OuterState :=
      { positions := sw.positions
        n_rejected := sw.n_rejected
        final_rms := final_rms
        final_iter := iter_index + 1
        converged := false }
    if sw.max_update < converge_threshold then { s' with converged := true }
    else runSweeps sqrtF measurements anchors unknown_ids converge_threshold
      iters_left (iter_index + 1) s'

/-- Embeds `solve` from `trilateration.rs` (lines 94-217): collect the
unknown ids, return `none` when there are none, otherwise initialise the
position table from the initial guess (defaulting to `(0, -50)`, fifty
metres under the line) and run the Gauss-Newton sweeps. -/
def solve (sqrtF : Rat → Rat) (measurements : List RangeMeasurement)
    (anchors : AnchorMap) (initial_guess : List (Nat × Pos2D))
    (max_iter : Nat) (converge_threshold : Rat) : Option MultilaterationResult :=
  let unknown_ids := unknownIds measurements anchors
  if unknown_ids.isEmpty then none
  else
    let positions0 := unknown_ids.map (fun id =>
      let guess := (assocGet initial_guess id).getD { x := 0, y := -50 }
      (id, (guess.x, guess.y)))
    let s0 : OuterState :=
      { positions := positions0, n_rejected := 0, final_rms := 0
        final_iter := 0, converged := false }
    let s := runSweeps sqrtF measurements anchors unknown_ids
      converge_threshold max_iter 0 s0
    some
      { positions := s.positions.map (fun p => (p.1, { x := p.2.1, y := p.2.2 }))
        rms_residual_m := s.final_rms
        iterations := s.final_iter
        converged := s.converged
        n_measurements := measurements.length - s.n_rejected
        n_rejected := s.n_rejected }

/-- Embeds `batch_solve` from `trilateration.rs`: flatten the epochs and
solve jointly with 20 iterations and a 1 mm threshold. -/
def batch_solve (sqrtF : Rat → Rat) (epochs : List (List RangeMeasurement))
    (anchors : AnchorMap) (initial_guess : List (Nat × Pos2D)) :
    Option MultilaterationResult :=
  let all := epochs.foldr (fun e acc => e ++ acc) []
  solve sqrtF all anchors initial_guess 20 (1 / 1000)

end Trilateration

namespace Audit

theorem appendChain_length (hashF : HashFn) (serOk : AuditBlock → Bool)
    (st : AuditState) (l : List AppendInput) :
    (appendChain hashF serOk st l).length = l.length := by
  induction l generalizing st with
  | nil => rfl
  | cons a t ih => simp [appendChain, ih]

theorem appendChain_get_seq (hashF : HashFn) (serOk : AuditBlock → Bool)
    (l : List AppendInput) : ∀ (st : AuditState) (i : Nat)
    (h : i < (appendChain hashF serOk st l).length),
    ((appendChain hashF serOk st l).get ⟨i, h⟩).block_seq = st.block_seq + i := by
  induction l with
  | nil => intro st i h; simp [appendChain] at h
  | cons a t ih =>
    intro st i h
    cases i with
    | zero => rfl
    | succ j =>
      have hlt : j < (appendChain hashF serOk (append hashF serOk st a).1 t).length := by
        simpa [appendChain] using Nat.lt_of_succ_lt_succ (by
          simpa [appendChain] using h)
      have ih' := ih (append hashF serOk st a).1 j hlt
      have hstep : (append hashF serOk st a).1.block_seq = st.block_seq + 1 := rfl
      calc ((appendChain hashF serOk st (a :: t)).get ⟨j + 1, h⟩).block_seq
          = ((appendChain hashF serOk (append hashF serOk st a).1 t).get ⟨j, hlt⟩).block_seq := rfl
        _ = (append hashF serOk st a).1.block_seq + j := ih'
        _ = st.block_seq + (j + 1) := by omega

theorem appendChain_head_prev (hashF : HashFn) (serOk : AuditBlock → Bool)
    (l : List AppendInput) (st : AuditState)
    (h : 0 < (appendChain hashF serOk st l).length) :
    ((appendChain hashF serOk st l).get ⟨0, h⟩).prev_hash = st.last_hash := by
  cases l with
  | nil => simp [appendChain] at h
  | cons a t => rfl

theorem appendChain_link (hashF : HashFn) (serOk : AuditBlock → Bool)
    (l : List AppendInput) : ∀ (st : AuditState) (i : Nat)
    (h : i + 1 < (appendChain hashF serOk st l).length),
    ((appendChain hashF serOk st l).get ⟨i + 1, h⟩).prev_hash =
      ((appendChain hashF serOk st l).get
        ⟨i, Nat.lt_of_succ_lt h⟩).block_hash := by
  induction l with
  | nil => intro st i h; simp [appendChain] at h
  | cons a t ih =>
    intro st i h
    cases i with
    | zero =>
      have h0 : 0 < (appendChain hashF serOk (append hashF serOk st a).1 t).length := by
        simpa [appendChain] using Nat.lt_of_succ_lt_succ (by
          simpa [appendChain] using h)
      have := appendChain_head_prev hashF serOk t (append hashF serOk st a).1 h0
      simpa [appendChain, append, AuditBlock.make] using this
    | succ j =>
      have := ih (append hashF serOk st a).1 j (by
        simpa [appendChain] using Nat.lt_of_succ_lt_succ (by
          simpa [appendChain] using h))
      simpa [appendChain] using this

theorem appendChain_verify (hashF : HashFn) (serOk : AuditBlock → Bool)
    (l : List AppendInput) : ∀ (st : AuditState) (b : AuditBlock),
    b ∈ appendChain hashF serOk st l → AuditBlock.verify hashF b = true := by
  induction l with
  | nil => intro st b hb; simp [appendChain] at hb
  | cons a t ih =>
    intro st b hb
    simp only [appendChain, List.mem_cons] at hb
    rcases hb with hb | hb
    · subst hb
      simp [append, AuditBlock.make, AuditBlock.verify]
    · exact ih _ b hb

/-- C1: for every sequence of blocks produced by successive `append` calls in
one process lifetime (any digest function, any serialisation outcomes), the
genesis `prev_hash` is the string of 64 zero hex digits, block `N + 1`'s
`prev_hash` equals block `N`'s `block_hash`, `block_seq` starts at `0` and
increases by exactly `1` per block, and `verify` returns `true` on every
appended block. -/
theorem audit_chain_invariants (hashF : HashFn) (serOk : AuditBlock → Bool)
    (inputs : List AppendInput) :
    GENESIS_HASH.data = List.replicate 64 '0' ∧
    (∀ h0 : 0 < (appendChain hashF serOk initialAuditState inputs).length,
      ((appendChain hashF serOk initialAuditState inputs).get ⟨0, h0⟩).prev_hash
        = GENESIS_HASH) ∧
    (∀ (i : Nat) (h : i + 1 < (appendChain hashF serOk initialAuditState inputs).length),
      ((appendChain hashF serOk initialAuditState inputs).get ⟨i + 1, h⟩).prev_hash
        = ((appendChain hashF serOk initialAuditState inputs).get
            ⟨i, Nat.lt_of_succ_lt h⟩).block_hash) ∧
    (∀ (i : Nat) (h : i < (appendChain hashF serOk initialAuditState inputs).length),
      ((appendChain hashF serOk initialAuditState inputs).get ⟨i, h⟩).block_seq = i) ∧
    (∀ b ∈ appendChain hashF serOk initialAuditState inputs,
      AuditBlock.verify hashF b = true) := by
  refine ⟨by decide, ?_, ?_, ?_, ?_⟩
  · intro h0
    simpa [initialAuditState] using
      appendChain_head_prev hashF serOk inputs initialAuditState h0
  · intro i h
    exact appendChain_link hashF serOk inputs initialAuditState i h
  · intro i h
    simpa [initialAuditState] using
      appendChain_get_seq hashF serOk inputs initialAuditState i h
  · intro b hb
    exact appendChain_verify hashF serOk inputs initialAuditState b hb

/-- Witness for C1: a concrete two-block chain, with the hash-link conjunct
instantiated at index 0. -/
theorem audit_chain_invariants_witness :
    ((appendChain (fun _ _ _ _ => "h") (fun _ => true) initialAuditState
        [⟨AuditEventType.raceStatusChange, "a", 1, "s"⟩,
         ⟨AuditEventType.ocsDetected, "b", 2, "s"⟩]).get ⟨1, by decide⟩).prev_hash
      = ((appendChain (fun _ _ _ _ => "h") (fun _ => true) initialAuditState
        [⟨AuditEventType.raceStatusChange, "a", 1, "s"⟩,
         ⟨AuditEventType.ocsDetected, "b", 2, "s"⟩]).get ⟨0, by decide⟩).block_hash := by
  have h := audit_chain_invariants (fun _ _ _ _ => "h") (fun _ => true)
    [⟨AuditEventType.raceStatusChange, "a", 1, "s"⟩,
     ⟨AuditEventType.ocsDetected, "b", 2, "s"⟩]
  exact h.2.2.1 0 (by decide)

/-- C3 (amended): if serialising the block fails inside `append`, the block
is dropped (not written) with a warning, but the chain state IS advanced
before serialisation is attempted: the stored counter increments and the
tail hash becomes the dropped block's hash, so the next appended block's
`prev_hash` equals the hash of the block that was never written. -/
theorem append_serialize_failure_advances_chain (hashF : HashFn)
    (serOk : AuditBlock → Bool) (st : AuditState) (inp next_inp : AppendInput)
    (hfail : serOk (append hashF serOk st inp).2.1 = false) :
    (append hashF serOk st inp).2.2 = false ∧
    (append hashF serOk st inp).1.block_seq = st.block_seq + 1 ∧
    (append hashF serOk st inp).1.last_hash
      = (append hashF serOk st inp).2.1.block_hash ∧
    (append hashF serOk (append hashF serOk st inp).1 next_inp).2.1.prev_hash
      = (append hashF serOk st inp).2.1.block_hash := by
  exact ⟨hfail, rfl, rfl, rfl⟩

/-- Witness for C3 (amended): a concrete failed append from the initial
state. -/
theorem append_serialize_failure_advances_chain_witness :
    (append (fun _ _ _ _ => "h") (fun _ => false) initialAuditState
      ⟨AuditEventType.raceStatusChange, "a", 1, "s"⟩).1.block_seq
      = initialAuditState.block_seq + 1 :=
  (append_serialize_failure_advances_chain (fun _ _ _ _ => "h") (fun _ => false)
    initialAuditState ⟨AuditEventType.raceStatusChange, "a", 1, "s"⟩
    ⟨AuditEventType.ocsDetected, "b", 2, "s"⟩ rfl).2.1

/-- Counterexample to C3 as stated: after a failed append (the serialiser
rejects every block) from the initial state, the stored tail hash and block
counter do NOT equal their values before the call — the counter has advanced
to 1 and the tail hash is no longer the genesis hash. -/
theorem append_serialize_failure_counterexample :
    ¬ ((append (fun _ _ _ _ => "h") (fun _ => false) initialAuditState
        ⟨AuditEventType.raceStatusChange, "a", 1, "s"⟩).1.block_seq
          = initialAuditState.block_seq ∧
      (append (fun _ _ _ _ => "h") (fun _ => false) initialAuditState
        ⟨AuditEventType.raceStatusChange, "a", 1, "s"⟩).1.last_hash
          = initialAuditState.last_hash) := by
  decide

/-- C9: `AuditBlock::verify` recomputes the hash only over `prev_hash`,
`timestamp_ms`, `event_type` and `payload_json`; replacing `block_seq` and
`session_id` by arbitrary values never changes its result, so tampering with
those two fields alone is undetected by per-block verification. -/
theorem verify_ignores_seq_and_session (hashF : HashFn) (b : AuditBlock)
    (s : Nat) (q : String) :
    AuditBlock.verify hashF { b with block_seq := s, session_id := q }
      = AuditBlock.verify hashF b := rfl

end Audit

namespace UwbHub

/-- C2 (amended): `accept(source_id, seq_num)` returns true iff
`(seq_num - last_seen) mod 2^32` is strictly positive and **at most** 1000:
an exact duplicate (difference 0) and any difference of 1001 or more is
rejected, a difference of exactly 1000 is still accepted, and an in-order
wrap (difference 1) is accepted. -/
theorem seq_guard_accept_iff (tr : SeqTracker) (node_id seq_num : Nat)
    (hseq : seq_num < 2 ^ 32) (hlast : tr.last_seq node_id < 2 ^ 32) :
    (tr.accept node_id seq_num).1 = true ↔
      (0 < wrapSub32 seq_num (tr.last_seq node_id) ∧
        wrapSub32 seq_num (tr.last_seq node_id) ≤ 1000) := by
  unfold SeqTracker.accept
  by_cases h : wrapSub32 seq_num (tr.last_seq node_id) = 0 ∨
      wrapSub32 seq_num (tr.last_seq node_id) > 1000
  · simp only [h, if_pos]
    constructor
    · intro hfalse; exact absurd hfalse (by simp)
    · intro hrange; omega
  · simp only [h, if_neg, not_false_eq_true]
    constructor
    · intro _; omega
    · intro _; trivial

/-- Witness for C2 (amended): from a fresh tracker, a first packet with
sequence number 5 (difference 5) is accepted. -/
theorem seq_guard_accept_iff_witness :
    (SeqTracker.new.accept 3 5).1 = true :=
  (seq_guard_accept_iff SeqTracker.new 3 5 (by decide) (by decide)).mpr (by decide)

/-- Counterexample to C2 as stated: from a fresh tracker (`last_seen = 0`) a
packet with `seq_num = 1000` has wrapping difference exactly 1000; the claim
says any difference of 1000 or more is rejected, but the code accepts it
(the code rejects only `diff == 0 || diff > 1000`). -/
theorem seq_guard_accept_iff_counterexample :
    (SeqTracker.new.accept 0 1000).1 = true ∧
      ¬ (0 < wrapSub32 1000 (SeqTracker.new.last_seq 0) ∧
          wrapSub32 1000 (SeqTracker.new.last_seq 0) < 1000) := by
  constructor
  · decide
  · decide

/-- C10: a never-seen source reads `last_seen = 0` (the `or_insert(0)`
default), so the very first packet from that source is accepted iff its
sequence number lies in `[1, 1000]`; in particular a first packet with
`seq_num = 0` or `seq_num > 1000` is rejected. -/
theorem seq_guard_first_packet (node_id seq_num : Nat)
    (hseq : seq_num < 2 ^ 32) :
    SeqTracker.new.last_seq node_id = 0 ∧
      ((SeqTracker.new.accept node_id seq_num).1 = true ↔
        (1 ≤ seq_num ∧ seq_num ≤ 1000)) := by
  refine ⟨rfl, ?_⟩
  have hw : wrapSub32 seq_num (SeqTracker.new.last_seq node_id) = seq_num := by
    show (seq_num + 2 ^ 32 - 0) % 2 ^ 32 = seq_num
    omega
  rw [seq_guard_accept_iff SeqTracker.new node_id seq_num hseq
    (by exact pow_pos (by norm_num) 32), hw]
  omega

/-- Witness for C10: first packets with sequence numbers 1 (accepted), 0
(rejected) and 1001 (rejected). -/
theorem seq_guard_first_packet_witness :
    (SeqTracker.new.accept 7 1).1 = true ∧
      ¬ (SeqTracker.new.accept 7 0).1 = true ∧
      ¬ (SeqTracker.new.accept 7 1001).1 = true :=
  ⟨(seq_guard_first_packet 7 1 (by decide)).2.mpr (by decide),
   fun h => by
     have := (seq_guard_first_packet 7 0 (by decide)).2.mp h
     omega,
   fun h => by
     have := (seq_guard_first_packet 7 1001 (by decide)).2.mp h
     omega⟩

end UwbHub

namespace UwbPhysics

/-- C5 (amended): whenever the packet has at least one peer
(`n_total ≥ 1`), the computed fix quality equals the clamped integer formula
`min(100, max(0, 70 - 12*n_nlos) + 4*min(8, n_total))`; a packet with zero
peers instead gets fix quality 0 from the explicit `n_total == 0` guard. -/
theorem fix_quality_eq_spec_formula (n_nlos n_total : Nat) (h : 0 < n_total) :
    (fix_quality n_nlos n_total : Int) = specFixQuality n_nlos n_total := by
  unfold fix_quality specFixQuality
  rw [if_neg (by omega)]
  omega

/-- Witness for C5 (amended): one NLOS peer out of five. -/
theorem fix_quality_eq_spec_formula_witness :
    (fix_quality 1 5 : Int) = specFixQuality 1 5 :=
  fix_quality_eq_spec_formula 1 5 (by decide)

/-- Counterexample to C5 as stated: at `n_nlos = 0, n_total = 0` the code's
guard returns 0 while the claimed formula gives 70. -/
theorem fix_quality_counterexample :
    ¬ ((fix_quality 0 0 : Int) = specFixQuality 0 0) := by decide

end UwbPhysics

namespace Handlers

open Procedure

/-- C4 (amended): Postpone, General Recall and Abandon each stop the
procedure engine (clearing its current node), set the corresponding race
status (`Postponed`, `GeneralRecall`, `Abandoned`) and raise the
corresponding visual flag (AP, FIRST_SUB, N).  Individual Recall sets status
`IndividualRecall` and raises the X flag but deliberately leaves the engine
untouched — racing continues, so the engine is NOT stopped. -/
theorem director_transitions (e : ProcedureEngine) (st : RaceState)
    (boats : List String) :
    ((postponeAction e st).1.current_node_id = none ∧
      (postponeAction e st).2.status = RaceStatus.postponed ∧
      (postponeAction e st).2.current_sequence
        = some { event := "Postponed", flags := ["AP"] }) ∧
    ((individualRecallAction boats e st).1 = e ∧
      (individualRecallAction boats e st).2.status = RaceStatus.individualRecall ∧
      (individualRecallAction boats e st).2.current_sequence
        = some { event := "Individual Recall", flags := ["X"] }) ∧
    ((generalRecallAction e st).1.current_node_id = none ∧
      (generalRecallAction e st).2.status = RaceStatus.generalRecall ∧
      (generalRecallAction e st).2.current_sequence
        = some { event := "General Recall", flags := ["FIRST_SUB"] }) ∧
    ((abandonAction e st).1.current_node_id = none ∧
      (abandonAction e st).2.status = RaceStatus.abandoned ∧
      (abandonAction e st).2.current_sequence
        = some { event := "Abandoned", flags := ["N"] }) :=
  ⟨⟨rfl, rfl, rfl⟩, ⟨rfl, rfl, rfl⟩, ⟨rfl, rfl, rfl⟩, ⟨rfl, rfl, rfl⟩⟩

/-- Counterexample to C4 as stated: Individual Recall does not stop the
engine.  With the engine running at node "1", the handler leaves the current
node in place instead of clearing it. -/
theorem director_transitions_counterexample :
    ¬ ((individualRecallAction ["GBR-7"]
        { graph := none, current_node_id := some "1", node_started_at := some 0,
          sequence_started_at := some 0, is_post_trigger := false,
          post_trigger_started_at := none }
        { status := RaceStatus.racing, current_sequence := none,
          sequence_time_remaining := none, start_time := none,
          waiting_for_trigger := false, action_label := none,
          is_post_trigger := false, ocs_boats := [],
          penalties := [] }).1.current_node_id = none) := by
  decide

/-- C6: each auto-timer body (postpone 60 s resume, general-recall 60 s
resume, individual-recall 300 s X-flag clear) re-reads the race status when
it wakes and performs no state change at all when the status has diverged
from the one the timer was armed under. -/
theorem auto_timer_self_cancel (now : Rat) (now_ms : Int)
    (e : ProcedureEngine) (st : RaceState) :
    (st.status ≠ RaceStatus.postponed → postponeResumeBody now e st = (e, st)) ∧
    (st.status ≠ RaceStatus.generalRecall →
      generalRecallResumeBody now e st = (e, st)) ∧
    (st.status ≠ RaceStatus.individualRecall →
      individualRecallClearBody now_ms st = st) := by
  refine ⟨fun h => ?_, fun h => ?_, fun h => ?_⟩
  · unfold postponeResumeBody
    rw [if_pos h]
  · unfold generalRecallResumeBody
    rw [if_pos h]
  · unfold individualRecallClearBody
    rw [if_pos h]

/-- Witness for C6: a postpone auto-resume that wakes while the race has
been manually reset to `Idle` leaves both the engine and the race state
untouched. -/
theorem auto_timer_self_cancel_witness :
    postponeResumeBody 0 ProcedureEngine.new
      { status := RaceStatus.idle, current_sequence := none,
        sequence_time_remaining := none, start_time := none,
        waiting_for_trigger := false, action_label := none,
        is_post_trigger := false, ocs_boats := [], penalties := [] }
      = (ProcedureEngine.new,
        { status := RaceStatus.idle, current_sequence := none,
          sequence_time_remaining := none, start_time := none,
          waiting_for_trigger := false, action_label := none,
          is_post_trigger := false, ocs_boats := [], penalties := [] }) :=
  (auto_timer_self_cancel 0 0 ProcedureEngine.new
    { status := RaceStatus.idle, current_sequence := none,
      sequence_time_remaining := none, start_time := none,
      waiting_for_trigger := false, action_label := none,
      is_post_trigger := false, ocs_boats := [], penalties := [] }).1
    (by decide)

end Handlers

namespace Procedure

/-- C8: for a loaded graph of a single node with `duration = 0`,
`wait_for_user_trigger = false`, `post_trigger_duration = 0`, no edges and
no auto-restart, the first `tick` after `start` returns `SequenceComplete`
and leaves the engine not running (current node cleared). -/
theorem single_zero_duration_node_completes (gid : String)
    (node : ProcedureNode) (t0 t1 : Rat)
    (hdur : node.data.duration = 0)
    (hwait : node.data.wait_for_user_trigger = false)
    (hpost : node.data.post_trigger_duration = 0) :
    ((((ProcedureEngine.new.load_procedure (singleNodeGraph gid node)).start
        t0).2.tick t1).1 = TickResult.sequenceComplete) ∧
    ((((ProcedureEngine.new.load_procedure (singleNodeGraph gid node)).start
        t0).2.tick t1).2.current_node_id = none) ∧
    ((((ProcedureEngine.new.load_procedure (singleNodeGraph gid node)).start
        t0).2.tick t1).2.is_running = false) := by
  obtain ⟨nid, ntype, data⟩ := node
  obtain ⟨label, flags, dur, snd, sndr, wait, alabel, pdur, pflags, rstat⟩ := data
  simp only at hdur hwait hpost
  subst hdur hwait hpost
  cases h1 : nid == "1" <;>
    simp [ProcedureEngine.new, ProcedureEngine.load_procedure, singleNodeGraph,
      ProcedureEngine.start, ProcedureEngine.tick, ProcedureEngine.transition_next,
      ProcedureEngine.is_running, findNode, List.find?, h1]

/-- Witness for C8: a concrete zero-duration single-node graph completes on
the first tick. -/
theorem single_zero_duration_node_completes_witness :
    ((((ProcedureEngine.new.load_procedure
        (singleNodeGraph "g" zeroDurationNode)).start 0).2.tick 1).1
      = TickResult.sequenceComplete) :=
  (single_zero_duration_node_completes "g" zeroDurationNode 0 1 rfl rfl rfl).1

end Procedure

namespace Trilateration

/-- C7: `solve` returns `None` exactly when the set of unknown (non-anchor)
node ids appearing in the measurements is empty; in particular an empty
measurement list yields `None`, and any non-empty unknown set yields
`Some` result — for every square-root routine, guess, iteration budget and
threshold. -/
theorem solve_none_iff_no_unknowns (sqrtF : Rat → Rat)
    (measurements : List RangeMeasurement) (anchors : AnchorMap)
    (initial_guess : List (Nat × Pos2D)) (max_iter : Nat) (thr : Rat) :
    (solve sqrtF measurements anchors initial_guess max_iter thr = none ↔
      unknownIds measurements anchors = []) ∧
    solve sqrtF [] anchors initial_guess max_iter thr = none := by
  constructor
  · rcases hu : unknownIds measurements anchors with _ | ⟨a, t⟩ <;>
      simp [solve, hu]
  · rfl

end Trilateration
